import Mathlib

/-!
Verification of the child-object collection exposed by
`src/pdf/document/page/object/x_object_form.rs` (the `PdfPageXObjectFormObject`
view over a native pdfium form page object).

The native library is modelled as a record of call surfaces
(`PdfiumLibraryBindings`): raw handles are natural numbers with 0 as the null
pointer, the native child count is a signed `c_int` value modelled as `Int`,
and the Rust `as` cast from `c_int` to the unsigned index type is modelled as
reduction modulo 2 ^ 64.
-/

namespace PdfiumRender

/-- Raw native page-object handle (FPDF_PAGEOBJECT): an opaque pointer,
modelled as a natural number with 0 standing for the null pointer. -/
abbrev FPDF_PAGEOBJECT : Type := Nat

/-- Raw native document handle (FPDF_DOCUMENT), modelled like FPDF_PAGEOBJECT. -/
abbrev FPDF_DOCUMENT : Type := Nat

/-- Modelled from the spec: the ownership tag type `PdfPageObjectOwnership`
(defined outside this module) describes who manages an object's lifetime:
owned by a page, owned by an object group, or unowned / detached. The source
module only names the `Unowned` variant directly. -/
inductive PdfPageObjectOwnership where
  | OwnedByPage (page : Nat)
  | OwnedByGroup (group : Nat)
  | Unowned
deriving DecidableEq, Repr

/-- The native-library binding surface consumed by this module: the three
FPDFFormObj entry points used by `x_object_form.rs`. `FPDFFormObj_CountObjects`
returns a signed `c_int`; `FPDFFormObj_GetObject` returns a possibly-null
handle; `FPDFFormObj_RemoveObject` returns an FPDF_BOOL (a `c_int`). -/
structure PdfiumLibraryBindings where
  FPDFFormObj_CountObjects : FPDF_PAGEOBJECT → Int
  FPDFFormObj_GetObject : FPDF_PAGEOBJECT → Nat → FPDF_PAGEOBJECT
  FPDFFormObj_RemoveObject : FPDF_PAGEOBJECT → FPDF_PAGEOBJECT → Int

/-- Modelled from the spec: the boolean-result truthiness helper provided by
the binding surface (an FPDF_BOOL is true exactly when it is nonzero). -/
def PdfiumLibraryBindings.is_true (_b : PdfiumLibraryBindings) (v : Int) : Bool :=
  v != 0

/-- The internal-error detail carried by `PdfiumError.PdfiumLibraryInternalError`. -/
inductive PdfiumInternalError where
  | Unknown
deriving DecidableEq, Repr

/-- The error variants of `PdfiumError` surfaced by this module. -/
inductive PdfiumError where
  | PageObjectIndexOutOfBounds
  | NoPageObjectsInCollection
  | PageObjectsCollectionIsImmutable
  | PageObjectNotCopyable
  | PdfiumLibraryInternalError (err : PdfiumInternalError)
deriving DecidableEq, Repr

/-- Modelled from the spec: the generic page-object wrapper, built by the
constructor `(handle, ownership, bindings) -> object` and exposing its handle,
ownership tag and binding reference. -/
structure PdfPageObject where
  object_handle : FPDF_PAGEOBJECT
  ownership : PdfPageObjectOwnership
  bindings : PdfiumLibraryBindings

/-- The generic page-object constructor used at the success path of `get_impl`. -/
def PdfPageObject.from_pdfium (object_handle : FPDF_PAGEOBJECT)
    (ownership : PdfPageObjectOwnership) (bindings : PdfiumLibraryBindings) :
    PdfPageObject :=
  ⟨object_handle, ownership, bindings⟩

/-- Mutation of the wrapper's ownership tag, used by `remove_object_impl`. -/
def PdfPageObject.set_ownership (obj : PdfPageObject)
    (ownership : PdfPageObjectOwnership) : PdfPageObject :=
  { obj with ownership := ownership }

/-- Modelled from the spec: `PdfPageObjectIndex` (defined outside this module)
is the host's unsigned pointer-sized integer type (usize, 64 bits wide here),
modelled as an unbounded natural number; every value the module produces for
it is below 2 ^ 64. -/
abbrev PdfPageObjectIndex : Type := Nat

/-- The Rust `as` cast from the native signed `c_int` count to
`PdfPageObjectIndex` (usize): two's-complement reinterpretation, i.e. reduction
modulo 2 ^ 64 of the signed value. -/
def intToUsize (i : Int) : Nat :=
  (i % (2 : Int) ^ 64).toNat

/-- A half-open Rust `Range` over indices (the Rust field named `end` is
called `stop` here because `end` is a Lean keyword). -/
structure RustRange where
  start : Nat
  stop : Nat
deriving DecidableEq, Repr

/-- An inclusive Rust `RangeInclusive` over indices. -/
structure RustRangeInclusive where
  start : Nat
  endInclusive : Nat
deriving DecidableEq, Repr

/-- The `PdfPageXObjectFormObject` view: an opaque native handle, an ownership
tag, and a reference to the native binding surface. -/
structure PdfPageXObjectFormObject where
  object_handle : FPDF_PAGEOBJECT
  ownership : PdfPageObjectOwnership
  bindings : PdfiumLibraryBindings

/-- The internal constructor `from_pdfium`. -/
def PdfPageXObjectFormObject.from_pdfium (object_handle : FPDF_PAGEOBJECT)
    (ownership : PdfPageObjectOwnership) (bindings : PdfiumLibraryBindings) :
    PdfPageXObjectFormObject :=
  ⟨object_handle, ownership, bindings⟩

/-- Source `len_impl`: the native child count, cast to `PdfPageObjectIndex`. -/
def PdfPageXObjectFormObject.len_impl (v : PdfPageXObjectFormObject) :
    PdfPageObjectIndex :=
  intToUsize (v.bindings.FPDFFormObj_CountObjects v.object_handle)

/-- Source `len`: forwards to `len_impl`. -/
def PdfPageXObjectFormObject.len (v : PdfPageXObjectFormObject) :
    PdfPageObjectIndex :=
  v.len_impl

/-- Source `is_empty`: whether `len` is zero. -/
def PdfPageXObjectFormObject.is_empty (v : PdfPageXObjectFormObject) : Bool :=
  v.len == 0

/-- Source `as_range`: the half-open range from 0 to `len`. -/
def PdfPageXObjectFormObject.as_range (v : PdfPageXObjectFormObject) :
    RustRange :=
  ⟨0, v.len⟩

/-- Source `as_range_inclusive`: `0..=0` when empty, else `0..=(len - 1)`. -/
def PdfPageXObjectFormObject.as_range_inclusive (v : PdfPageXObjectFormObject) :
    RustRangeInclusive :=
  if v.is_empty then ⟨0, 0⟩ else ⟨0, v.len - 1⟩

/-- Source `get_impl`: calls the native `FPDFFormObj_GetObject` (the `index as
c_ulong` cast is a reduction modulo 2 ^ 64); on a null handle it reports
`PageObjectIndexOutOfBounds` when `index >= len()` and the internal Unknown
error otherwise; on a non-null handle it wraps the handle with the view's
ownership tag and binding reference. -/
def PdfPageXObjectFormObject.get_impl (v : PdfPageXObjectFormObject)
    (index : PdfPageObjectIndex) : Except PdfiumError PdfPageObject :=
  let object_handle :=
    v.bindings.FPDFFormObj_GetObject v.object_handle (index % 2 ^ 64)
  if object_handle = 0 then
    if v.len ≤ index then
      Except.error PdfiumError.PageObjectIndexOutOfBounds
    else
      Except.error
        (PdfiumError.PdfiumLibraryInternalError PdfiumInternalError.Unknown)
  else
    Except.ok (PdfPageObject.from_pdfium object_handle v.ownership v.bindings)

/-- Source `get`: forwards to `get_impl`. -/
def PdfPageXObjectFormObject.get (v : PdfPageXObjectFormObject)
    (index : PdfPageObjectIndex) : Except PdfiumError PdfPageObject :=
  v.get_impl index

/-- Source `first`: `get 0` when non-empty, else `NoPageObjectsInCollection`. -/
def PdfPageXObjectFormObject.first (v : PdfPageXObjectFormObject) :
    Except PdfiumError PdfPageObject :=
  if !v.is_empty then v.get 0
  else Except.error PdfiumError.NoPageObjectsInCollection

/-- Source `last`: `get (len - 1)` when non-empty, else
`NoPageObjectsInCollection`. -/
def PdfPageXObjectFormObject.last (v : PdfPageXObjectFormObject) :
    Except PdfiumError PdfPageObject :=
  if !v.is_empty then v.get (v.len - 1)
  else Except.error PdfiumError.NoPageObjectsInCollection

/-- Modelled from the spec: `PdfPageObjectsIterator` (defined outside this
module) is the lazy traversal driven by repeated `get(i)` calls from index 0
up to `len()`; it is modelled as the finite list of those call results. -/
def PdfPageXObjectFormObject.iter_impl (v : PdfPageXObjectFormObject) :
    List (Except PdfiumError PdfPageObject) :=
  (List.range v.len).map (fun i => v.get_impl i)

/-- Source `add_object_impl`: always fails with
`PageObjectsCollectionIsImmutable`; the pair returns the receiver to model the
Rust `&mut self`, which this method leaves untouched. -/
def PdfPageXObjectFormObject.add_object_impl (v : PdfPageXObjectFormObject)
    (_object : PdfPageObject) :
    Except PdfiumError PdfPageObject × PdfPageXObjectFormObject :=
  (Except.error PdfiumError.PageObjectsCollectionIsImmutable, v)

/-- Source `remove_object_impl` under `#[cfg(feature = "pdfium_future")]`:
asks the native library to detach the child handle; on a truthy result,
re-tags the removed object as Unowned and returns it; otherwise reports the
internal Unknown error. The pair returns the receiver to model `&mut self`,
which this method leaves untouched. -/
def PdfPageXObjectFormObject.remove_object_impl_future
    (v : PdfPageXObjectFormObject) (object : PdfPageObject) :
    Except PdfiumError PdfPageObject × PdfPageXObjectFormObject :=
  if v.bindings.is_true
      (v.bindings.FPDFFormObj_RemoveObject v.object_handle object.object_handle)
  then
    (Except.ok (object.set_ownership PdfPageObjectOwnership.Unowned), v)
  else
    (Except.error
      (PdfiumError.PdfiumLibraryInternalError PdfiumInternalError.Unknown), v)

/-- Source `remove_object_impl` under `#[cfg(not(feature = "pdfium_future"))]`:
always fails with `PageObjectsCollectionIsImmutable`, making no native call.
The pair returns the receiver to model `&mut self`, which is untouched. -/
def PdfPageXObjectFormObject.remove_object_impl_nofuture
    (v : PdfPageXObjectFormObject) (_object : PdfPageObject) :
    Except PdfiumError PdfPageObject × PdfPageXObjectFormObject :=
  (Except.error PdfiumError.PageObjectsCollectionIsImmutable, v)

/-- The conditional compilation on the `pdfium_future` feature, modelled as an
explicit capability flag selecting between the two `remove_object_impl`
bodies. -/
def PdfPageXObjectFormObject.remove_object_impl (pdfium_future : Bool)
    (v : PdfPageXObjectFormObject) (object : PdfPageObject) :
    Except PdfiumError PdfPageObject × PdfPageXObjectFormObject :=
  if pdfium_future then v.remove_object_impl_future object
  else v.remove_object_impl_nofuture object

/-- Source `is_copyable_impl`: constantly false. -/
def PdfPageXObjectFormObject.is_copyable_impl
    (_v : PdfPageXObjectFormObject) : Bool :=
  false

/-- Source `try_copy_impl`: ignores the target document and binding surface
and always fails with `PageObjectNotCopyable`. -/
def PdfPageXObjectFormObject.try_copy_impl (_v : PdfPageXObjectFormObject)
    (_document : FPDF_DOCUMENT) (_bindings : PdfiumLibraryBindings) :
    Except PdfiumError PdfPageObject :=
  Except.error PdfiumError.PageObjectNotCopyable

/-! Concrete binding surfaces used to evaluate the model on closed inputs. -/

/-- A well-behaved native library exposing three children (handles 10, 11, 12)
and returning the null handle for out-of-range indices. -/
def bindingsThree : PdfiumLibraryBindings :=
  ⟨fun _ => 3, fun _ i => if i < 3 then i + 10 else 0, fun _ _ => 1⟩

/-- A view over the three-child native library. -/
def viewThree : PdfPageXObjectFormObject :=
  ⟨1, PdfPageObjectOwnership.OwnedByPage 4, bindingsThree⟩

/-- A native library with no children at all. -/
def bindingsEmpty : PdfiumLibraryBindings :=
  ⟨fun _ => 0, fun _ _ => 0, fun _ _ => 0⟩

/-- A view over the empty native library. -/
def viewEmpty : PdfPageXObjectFormObject :=
  ⟨1, PdfPageObjectOwnership.Unowned, bindingsEmpty⟩

/-- A faulty native library that reports three children but returns the null
handle for every index. -/
def bindingsNullThree : PdfiumLibraryBindings :=
  ⟨fun _ => 3, fun _ _ => 0, fun _ _ => 0⟩

/-- A view over the faulty null-returning native library. -/
def viewNullThree : PdfPageXObjectFormObject :=
  ⟨1, PdfPageObjectOwnership.Unowned, bindingsNullThree⟩

/-- A rogue native library that reports zero children yet returns a non-null
handle (7) for every index. -/
def bindingsRogue : PdfiumLibraryBindings :=
  ⟨fun _ => 0, fun _ _ => 7, fun _ _ => 0⟩

/-- A view over the rogue native library. -/
def viewRogue : PdfPageXObjectFormObject :=
  ⟨1, PdfPageObjectOwnership.Unowned, bindingsRogue⟩

/-- A native library whose child count call returns the -1 error sentinel. -/
def bindingsNeg : PdfiumLibraryBindings :=
  ⟨fun _ => -1, fun _ _ => 0, fun _ _ => 0⟩

/-- A view over the negative-count native library. -/
def viewNeg : PdfPageXObjectFormObject :=
  ⟨1, PdfPageObjectOwnership.Unowned, bindingsNeg⟩

/-! Helper lemmas shared by the claim theorems. -/

/-- Unfolding lemma for `len`. -/
lemma PdfPageXObjectFormObject.len_eq (v : PdfPageXObjectFormObject) :
    v.len = intToUsize (v.bindings.FPDFFormObj_CountObjects v.object_handle) :=
  rfl

/-- The usize cast of a non-negative `c_int` value is exact. -/
lemma intToUsize_of_nonneg (c : Int) (h0 : 0 ≤ c) (h1 : c < 2 ^ 64) :
    intToUsize c = c.toNat := by
  unfold intToUsize
  rw [Int.emod_eq_of_lt h0 h1]

/-- The usize cast of a negative `c_int` value wraps to `c + 2 ^ 64`. -/
lemma intToUsize_of_neg (c : Int) (h0 : -(2 ^ 31) ≤ c) (h1 : c < 0) :
    intToUsize c = (c + 2 ^ 64).toNat := by
  unfold intToUsize
  have : c % (2 : Int) ^ 64 = c + 2 ^ 64 := by omega
  rw [this]

/-- The usize cast never reaches 2 ^ 64. -/
lemma intToUsize_lt (c : Int) : intToUsize c < 2 ^ 64 := by
  unfold intToUsize
  have h1 : c % (2 : Int) ^ 64 < 2 ^ 64 :=
    Int.emod_lt_of_pos c (by positivity)
  omega

/-- Case characterization of `get_impl`, read off the source. -/
lemma PdfPageXObjectFormObject.get_impl_eq (v : PdfPageXObjectFormObject)
    (index : PdfPageObjectIndex) :
    v.get_impl index =
      if v.bindings.FPDFFormObj_GetObject v.object_handle (index % 2 ^ 64) = 0
      then
        if v.len ≤ index then
          Except.error PdfiumError.PageObjectIndexOutOfBounds
        else
          Except.error
            (PdfiumError.PdfiumLibraryInternalError PdfiumInternalError.Unknown)
      else
        Except.ok
          (PdfPageObject.from_pdfium
            (v.bindings.FPDFFormObj_GetObject v.object_handle (index % 2 ^ 64))
            v.ownership v.bindings) :=
  rfl

/-- On any successful `get_impl`, the returned wrapper carries the view's
ownership tag and binding reference and the non-null native handle. -/
lemma PdfPageXObjectFormObject.get_impl_ok (v : PdfPageXObjectFormObject)
    (index : PdfPageObjectIndex) (o : PdfPageObject)
    (h : v.get_impl index = Except.ok o) :
    o.ownership = v.ownership ∧ o.bindings = v.bindings := by
  rw [PdfPageXObjectFormObject.get_impl_eq] at h
  by_cases hnull :
      v.bindings.FPDFFormObj_GetObject v.object_handle (index % 2 ^ 64) = 0
  · rw [if_pos hnull] at h
    by_cases hlen : v.len ≤ index
    · rw [if_pos hlen] at h
      exact absurd h (by simp)
    · rw [if_neg hlen] at h
      exact absurd h (by simp)
  · rw [if_neg hnull] at h
    have := Except.ok.inj h
    subst this
    exact ⟨rfl, rfl⟩

/-- `get_impl` never fails with `PageObjectIndexOutOfBounds` at an in-bounds
index. -/
lemma PdfPageXObjectFormObject.get_impl_in_bounds_not_oob
    (v : PdfPageXObjectFormObject) (index : PdfPageObjectIndex)
    (h : index < v.len) :
    v.get_impl index ≠ Except.error PdfiumError.PageObjectIndexOutOfBounds := by
  rw [PdfPageXObjectFormObject.get_impl_eq]
  by_cases hnull :
      v.bindings.FPDFFormObj_GetObject v.object_handle (index % 2 ^ 64) = 0
  · have hlen : ¬ v.len ≤ index := not_le.mpr h
    rw [if_pos hnull, if_neg hlen]
    simp
  · rw [if_neg hnull]
    simp

/-- `get_impl` never fails with `NoPageObjectsInCollection`. -/
lemma PdfPageXObjectFormObject.get_impl_ne_empty_err
    (v : PdfPageXObjectFormObject) (index : PdfPageObjectIndex) :
    v.get_impl index ≠ Except.error PdfiumError.NoPageObjectsInCollection := by
  rw [PdfPageXObjectFormObject.get_impl_eq]
  by_cases hnull :
      v.bindings.FPDFFormObj_GetObject v.object_handle (index % 2 ^ 64) = 0
  · rw [if_pos hnull]
    by_cases hlen : v.len ≤ index
    · rw [if_pos hlen]; simp
    · rw [if_neg hlen]; simp
  · rw [if_neg hnull]; simp

/-- Sanity evaluations of the concrete views. -/
lemma viewThree_len : viewThree.len = 3 := by decide

/-- The empty view has length zero. -/
lemma viewEmpty_len : viewEmpty.len = 0 := by decide

/-- C1, counterexample: against a native library that returns a non-null
handle at an out-of-range index, `get` succeeds instead of failing with
`PageObjectIndexOutOfBounds`, because the source only performs its bounds
check after observing a null handle. Here the view reports zero children yet
`get 5` does not fail with `PageObjectIndexOutOfBounds`. -/
theorem get_oob_not_always_out_of_bounds :
    viewRogue.len ≤ 5 ∧
    viewRogue.get 5 ≠ Except.error PdfiumError.PageObjectIndexOutOfBounds := by
  refine ⟨by decide, fun hcontra => ?_⟩
  have hok : viewRogue.get 5 =
      Except.ok (PdfPageObject.from_pdfium 7 PdfPageObjectOwnership.Unowned
        bindingsRogue) := rfl
  rw [hok] at hcontra
  exact Except.noConfusion hcontra

/-- C1, amended: when the native GetChildObject call returns a null handle,
`get(i)` fails with `PageObjectIndexOutOfBounds` for `i >= len()` and with the
internal Unknown error for `i < len()`; and `get(i)` for `i < len()` never
fails with `PageObjectIndexOutOfBounds`. (When the native call returns a
non-null handle, `get` succeeds even out of bounds.) -/
theorem get_error_characterization (v : PdfPageXObjectFormObject)
    (i : PdfPageObjectIndex) :
    (v.bindings.FPDFFormObj_GetObject v.object_handle (i % 2 ^ 64) = 0 →
      (v.len ≤ i →
        v.get i = Except.error PdfiumError.PageObjectIndexOutOfBounds) ∧
      (i < v.len →
        v.get i = Except.error
          (PdfiumError.PdfiumLibraryInternalError PdfiumInternalError.Unknown))) ∧
    (i < v.len →
      v.get i ≠ Except.error PdfiumError.PageObjectIndexOutOfBounds) := by
  refine ⟨fun hnull => ⟨fun hge => ?_, fun hlt => ?_⟩,
    fun hlt => v.get_impl_in_bounds_not_oob i hlt⟩
  · show v.get_impl i = _
    rw [v.get_impl_eq i, if_pos hnull, if_pos hge]
  · show v.get_impl i = _
    have hn : ¬ v.len ≤ i := not_le.mpr hlt
    rw [v.get_impl_eq i, if_pos hnull, if_neg hn]

/-- Witness for the amended C1, at a faulty library reporting three children
but returning null handles, and at a well-behaved three-child library. -/
theorem get_error_characterization_witness :
    viewNullThree.get 5 = Except.error PdfiumError.PageObjectIndexOutOfBounds ∧
    viewNullThree.get 1 = Except.error
      (PdfiumError.PdfiumLibraryInternalError PdfiumInternalError.Unknown) ∧
    viewThree.get 1 ≠ Except.error PdfiumError.PageObjectIndexOutOfBounds := by
  refine ⟨?_, ?_, ?_⟩
  · exact ((get_error_characterization viewNullThree 5).1 (by decide)).1
      (by decide)
  · exact ((get_error_characterization viewNullThree 1).1 (by decide)).2
      (by decide)
  · exact (get_error_characterization viewThree 1).2 (by decide)

/-- C2: with the pdfium_future capability enabled, removal re-tags the object
as Unowned and returns it on a truthy native result and reports the internal
Unknown error on a falsy one; with the capability disabled, removal always
fails with `PageObjectsCollectionIsImmutable`, the receiver is untouched and
its length unchanged. -/
theorem remove_object_capability_spec (pdfium_future : Bool)
    (v : PdfPageXObjectFormObject) (object : PdfPageObject) :
    (pdfium_future = true →
      (v.bindings.is_true
          (v.bindings.FPDFFormObj_RemoveObject v.object_handle
            object.object_handle) = true →
        PdfPageXObjectFormObject.remove_object_impl pdfium_future v object =
          (Except.ok (object.set_ownership PdfPageObjectOwnership.Unowned), v)) ∧
      (v.bindings.is_true
          (v.bindings.FPDFFormObj_RemoveObject v.object_handle
            object.object_handle) = false →
        PdfPageXObjectFormObject.remove_object_impl pdfium_future v object =
          (Except.error
            (PdfiumError.PdfiumLibraryInternalError PdfiumInternalError.Unknown),
           v))) ∧
    (pdfium_future = false →
      PdfPageXObjectFormObject.remove_object_impl pdfium_future v object =
        (Except.error PdfiumError.PageObjectsCollectionIsImmutable, v) ∧
      (PdfPageXObjectFormObject.remove_object_impl pdfium_future v object).2.len
        = v.len) := by
  refine ⟨fun hflag => ⟨fun htrue => ?_, fun hfalse => ?_⟩, fun hflag => ?_⟩
  · subst hflag
    show v.remove_object_impl_future object = _
    rw [PdfPageXObjectFormObject.remove_object_impl_future, if_pos htrue]
  · subst hflag
    show v.remove_object_impl_future object = _
    rw [PdfPageXObjectFormObject.remove_object_impl_future,
      if_neg (by rw [hfalse]; exact Bool.false_ne_true)]
  · subst hflag
    exact ⟨rfl, rfl⟩

/-- Witness for C2: concrete removal with the capability enabled against a
library whose removal call succeeds, against one whose removal call fails,
and with the capability disabled. -/
theorem remove_object_capability_spec_witness :
    PdfPageXObjectFormObject.remove_object_impl true viewThree
        (PdfPageObject.from_pdfium 11 (PdfPageObjectOwnership.OwnedByPage 4)
          bindingsThree) =
      (Except.ok ((PdfPageObject.from_pdfium 11
          (PdfPageObjectOwnership.OwnedByPage 4) bindingsThree).set_ownership
          PdfPageObjectOwnership.Unowned), viewThree) ∧
    PdfPageXObjectFormObject.remove_object_impl true viewEmpty
        (PdfPageObject.from_pdfium 11 PdfPageObjectOwnership.Unowned
          bindingsEmpty) =
      (Except.error
        (PdfiumError.PdfiumLibraryInternalError PdfiumInternalError.Unknown),
       viewEmpty) ∧
    PdfPageXObjectFormObject.remove_object_impl false viewThree
        (PdfPageObject.from_pdfium 11 (PdfPageObjectOwnership.OwnedByPage 4)
          bindingsThree) =
      (Except.error PdfiumError.PageObjectsCollectionIsImmutable, viewThree) := by
  refine ⟨?_, ?_, ?_⟩
  · exact ((remove_object_capability_spec true viewThree _).1 rfl).1 (by decide)
  · exact ((remove_object_capability_spec true viewEmpty _).1 rfl).2 (by decide)
  · exact ((remove_object_capability_spec false viewThree _).2 rfl).1

/-- C3: insertion through this view never succeeds: for every input object,
`add_object_impl` fails with `PageObjectsCollectionIsImmutable` and leaves the
receiver untouched. -/
theorem add_object_always_immutable (v : PdfPageXObjectFormObject)
    (object : PdfPageObject) :
    v.add_object_impl object =
      (Except.error PdfiumError.PageObjectsCollectionIsImmutable, v) :=
  rfl

/-- C4: for every target document and binding surface, copying fails with
`PageObjectNotCopyable`, and the is-copyable query reports false. -/
theorem try_copy_never_copyable (v : PdfPageXObjectFormObject)
    (document : FPDF_DOCUMENT) (target : PdfiumLibraryBindings) :
    v.try_copy_impl document target =
      Except.error PdfiumError.PageObjectNotCopyable ∧
    v.is_copyable_impl = false :=
  ⟨rfl, rfl⟩

/-- C5: `first` and `last` fail with `NoPageObjectsInCollection` exactly when
the collection is empty; otherwise `first` returns the result of `get 0` and
`last` the result of `get (len - 1)`. -/
theorem first_last_spec (v : PdfPageXObjectFormObject) :
    (v.first = Except.error PdfiumError.NoPageObjectsInCollection ↔
      v.len = 0) ∧
    (v.last = Except.error PdfiumError.NoPageObjectsInCollection ↔
      v.len = 0) ∧
    (0 < v.len → v.first = v.get 0 ∧ v.last = v.get (v.len - 1)) := by
  by_cases hlen : v.len = 0
  · have hempty : v.is_empty = true := by
      simp [PdfPageXObjectFormObject.is_empty, hlen]
    have hf : v.first = Except.error PdfiumError.NoPageObjectsInCollection := by
      unfold PdfPageXObjectFormObject.first
      rw [hempty]
      rfl
    have hl : v.last = Except.error PdfiumError.NoPageObjectsInCollection := by
      unfold PdfPageXObjectFormObject.last
      rw [hempty]
      rfl
    exact ⟨by simp [hf, hlen], by simp [hl, hlen],
      fun h0 => absurd hlen (Nat.pos_iff_ne_zero.mp h0)⟩
  · have hempty : v.is_empty = false := by
      simp [PdfPageXObjectFormObject.is_empty]
      exact hlen
    have hf : v.first = v.get 0 := by
      unfold PdfPageXObjectFormObject.first
      rw [hempty]
      rfl
    have hl : v.last = v.get (v.len - 1) := by
      unfold PdfPageXObjectFormObject.last
      rw [hempty]
      rfl
    refine ⟨?_, ?_, fun _ => ⟨hf, hl⟩⟩
    · rw [hf]
      exact iff_of_false (v.get_impl_ne_empty_err 0) hlen
    · rw [hl]
      exact iff_of_false (v.get_impl_ne_empty_err (v.len - 1)) hlen

/-- Witness for C5: the empty view fails with `NoPageObjectsInCollection`,
and the three-child view forwards `first` and `last` to `get`. -/
theorem first_last_spec_witness :
    viewEmpty.first = Except.error PdfiumError.NoPageObjectsInCollection ∧
    viewThree.first = viewThree.get 0 ∧
    viewThree.last = viewThree.get (viewThree.len - 1) := by
  refine ⟨(first_last_spec viewEmpty).1.mpr (by decide), ?_, ?_⟩
  · exact ((first_last_spec viewThree).2.2 (by decide)).1
  · exact ((first_last_spec viewThree).2.2 (by decide)).2

/-- C6: `as_range` is the half-open range from 0 to `len`, and
`as_range_inclusive` is `0..=(len - 1)` for a non-empty collection and the
degenerate sentinel `0..=0` for an empty one. -/
theorem as_range_spec (v : PdfPageXObjectFormObject) :
    v.as_range = ⟨0, v.len⟩ ∧
    (0 < v.len → v.as_range_inclusive = ⟨0, v.len - 1⟩) ∧
    (v.len = 0 → v.as_range_inclusive = ⟨0, 0⟩) := by
  refine ⟨rfl, fun h0 => ?_, fun h0 => ?_⟩
  · have hempty : v.is_empty = false := by
      simp [PdfPageXObjectFormObject.is_empty]
      exact Nat.pos_iff_ne_zero.mp h0
    unfold PdfPageXObjectFormObject.as_range_inclusive
    rw [hempty]
    rfl
  · have hempty : v.is_empty = true := by
      simp [PdfPageXObjectFormObject.is_empty, h0]
    unfold PdfPageXObjectFormObject.as_range_inclusive
    rw [hempty]
    rfl

/-- Witness for C6: the inclusive range at a three-child view and at an
empty view. -/
theorem as_range_spec_witness :
    viewThree.as_range_inclusive = ⟨0, viewThree.len - 1⟩ ∧
    viewEmpty.as_range_inclusive = ⟨0, 0⟩ :=
  ⟨(as_range_spec viewThree).2.1 (by decide),
   (as_range_spec viewEmpty).2.2 (by decide)⟩

/-- C7: every child object successfully returned by `get` (and hence by
`first`, `last`, and the iterator) carries the view's own ownership tag,
unmodified, together with the view's binding reference. -/
theorem children_inherit_ownership (v : PdfPageXObjectFormObject) :
    (∀ i o, v.get i = Except.ok o →
      o.ownership = v.ownership ∧ o.bindings = v.bindings) ∧
    (∀ o, v.first = Except.ok o →
      o.ownership = v.ownership ∧ o.bindings = v.bindings) ∧
    (∀ o, v.last = Except.ok o →
      o.ownership = v.ownership ∧ o.bindings = v.bindings) ∧
    (∀ r, r ∈ v.iter_impl → ∀ o, r = Except.ok o →
      o.ownership = v.ownership ∧ o.bindings = v.bindings) := by
  refine ⟨fun i o ho => v.get_impl_ok i o ho, fun o ho => ?_, fun o ho => ?_,
    fun r hr o hro => ?_⟩
  · unfold PdfPageXObjectFormObject.first at ho
    cases hb : v.is_empty with
    | false =>
        rw [hb] at ho
        simp only [Bool.not_false, if_true] at ho
        exact v.get_impl_ok 0 o ho
    | true =>
        rw [hb] at ho
        simp at ho
  · unfold PdfPageXObjectFormObject.last at ho
    cases hb : v.is_empty with
    | false =>
        rw [hb] at ho
        simp only [Bool.not_false, if_true] at ho
        exact v.get_impl_ok (v.len - 1) o ho
    | true =>
        rw [hb] at ho
        simp at ho
  · rcases List.mem_map.mp hr with ⟨i, -, rfl⟩
    exact v.get_impl_ok i o hro

/-- Witness for C7: the wrapper returned by the three-child view at index 1
shares the view's ownership tag and bindings. -/
theorem children_inherit_ownership_witness :
    (PdfPageObject.from_pdfium 11 (PdfPageObjectOwnership.OwnedByPage 4)
        bindingsThree).ownership = viewThree.ownership ∧
    (PdfPageObject.from_pdfium 11 (PdfPageObjectOwnership.OwnedByPage 4)
        bindingsThree).bindings = viewThree.bindings :=
  (children_inherit_ownership viewThree).1 1
    (PdfPageObject.from_pdfium 11 (PdfPageObjectOwnership.OwnedByPage 4)
      bindingsThree) rfl

/-- C8: `len` is exactly the usize cast of the current native
`FPDFFormObj_CountObjects` response — for every binding surface, handle and
ownership tag, so nothing is cached and every invocation reflects the current
native state; it is non-negative; and for a non-negative native count the
returned value equals the native count exactly. -/
theorem len_queries_native_every_call (bindings : PdfiumLibraryBindings)
    (handle : FPDF_PAGEOBJECT) (ownership : PdfPageObjectOwnership) :
    (PdfPageXObjectFormObject.from_pdfium handle ownership bindings).len =
      intToUsize (bindings.FPDFFormObj_CountObjects handle) ∧
    0 ≤ ((PdfPageXObjectFormObject.from_pdfium handle ownership
      bindings).len : Int) ∧
    (0 ≤ bindings.FPDFFormObj_CountObjects handle →
      bindings.FPDFFormObj_CountObjects handle < 2 ^ 64 →
      ((PdfPageXObjectFormObject.from_pdfium handle ownership
          bindings).len : Int) =
        bindings.FPDFFormObj_CountObjects handle) := by
  refine ⟨rfl, Int.natCast_nonneg _, fun h0 h1 => ?_⟩
  show (intToUsize (bindings.FPDFFormObj_CountObjects handle) : Int) = _
  rw [intToUsize_of_nonneg _ h0 h1, Int.toNat_of_nonneg h0]

/-- Witness for C8: at a native library reporting three children, `len`
equals the native count exactly. -/
theorem len_queries_native_every_call_witness :
    ((PdfPageXObjectFormObject.from_pdfium 1 PdfPageObjectOwnership.Unowned
        bindingsThree).len : Int) =
      bindingsThree.FPDFFormObj_CountObjects 1 :=
  (len_queries_native_every_call bindingsThree 1
    PdfPageObjectOwnership.Unowned).2.2 (by decide) (by decide)

/-- C9: `is_empty` reports true exactly when `len` is zero, for every view
over every native collection state. -/
theorem is_empty_iff_len_zero (v : PdfPageXObjectFormObject) :
    v.is_empty = true ↔ v.len = 0 := by
  simp [PdfPageXObjectFormObject.is_empty]

/-- Witness for C9: the empty view reports empty. -/
theorem is_empty_iff_len_zero_witness : viewEmpty.is_empty = true :=
  (is_empty_iff_len_zero viewEmpty).mpr (by decide)

/-- C10: when the native count call returns a negative `c_int` value (such as
the -1 error sentinel), the plain cast wraps it modulo 2 ^ 64, so `len`
reports the huge wrapped count `c + 2 ^ 64` (above 2 ^ 63) rather than zero
or an error; the view then reports itself non-empty, `as_range` spans the
wrapped count, and the bounds checks of `get` use the wrapped value (no index
below it is rejected as out of bounds). -/
theorem negative_count_wraps (bindings : PdfiumLibraryBindings)
    (handle : FPDF_PAGEOBJECT) (ownership : PdfPageObjectOwnership) (c : Int)
    (hc : bindings.FPDFFormObj_CountObjects handle = c)
    (h0 : -(2 ^ 31) ≤ c) (h1 : c < 0) :
    (PdfPageXObjectFormObject.from_pdfium handle ownership bindings).len =
      (c + 2 ^ 64).toNat ∧
    2 ^ 63 <
      (PdfPageXObjectFormObject.from_pdfium handle ownership bindings).len ∧
    (PdfPageXObjectFormObject.from_pdfium handle ownership
      bindings).is_empty = false ∧
    (PdfPageXObjectFormObject.from_pdfium handle ownership bindings).as_range =
      ⟨0, (c + 2 ^ 64).toNat⟩ ∧
    ∀ i,
      i < (PdfPageXObjectFormObject.from_pdfium handle ownership bindings).len →
      (PdfPageXObjectFormObject.from_pdfium handle ownership bindings).get i ≠
        Except.error PdfiumError.PageObjectIndexOutOfBounds := by
  have hlen :
      (PdfPageXObjectFormObject.from_pdfium handle ownership bindings).len =
        (c + 2 ^ 64).toNat := by
    show intToUsize (bindings.FPDFFormObj_CountObjects handle) = _
    rw [hc]
    exact intToUsize_of_neg c h0 h1
  have hbig : 2 ^ 63 < (c + 2 ^ 64).toNat := by omega
  refine ⟨hlen, by rw [hlen]; exact hbig, ?_, ?_,
    fun i hi =>
      PdfPageXObjectFormObject.get_impl_in_bounds_not_oob _ i hi⟩
  · simp only [PdfPageXObjectFormObject.is_empty, hlen]
    have hne : (c + 2 ^ 64).toNat ≠ 0 := by omega
    simpa using hne
  · unfold PdfPageXObjectFormObject.as_range
    rw [hlen]

/-- Witness for C10: a native library returning the -1 sentinel yields the
wrapped count 2 ^ 64 - 1, reported as non-empty, with index 0 not rejected as
out of bounds. -/
theorem negative_count_wraps_witness :
    (PdfPageXObjectFormObject.from_pdfium 1 PdfPageObjectOwnership.Unowned
        bindingsNeg).len = 18446744073709551615 ∧
    (PdfPageXObjectFormObject.from_pdfium 1 PdfPageObjectOwnership.Unowned
        bindingsNeg).is_empty = false ∧
    (PdfPageXObjectFormObject.from_pdfium 1 PdfPageObjectOwnership.Unowned
        bindingsNeg).get 0 ≠
      Except.error PdfiumError.PageObjectIndexOutOfBounds := by
  have h := negative_count_wraps bindingsNeg 1 PdfPageObjectOwnership.Unowned
    (-1) rfl (by norm_num) (by norm_num)
  refine ⟨?_, h.2.2.1, h.2.2.2.2 0 ?_⟩
  · rw [h.1]
    decide
  · rw [h.1]
    decide

end PdfiumRender
